import Mathlib

/-!
Shallow embedding of the SDL2pp wrapper library (NathanSWard/SDL2pp).

The repository is a thin C++ wrapper around the external SDL2 and
SDL2_image C libraries.  The external C functions are modelled as oracle
arguments: each embedded member function takes, besides the wrapper
object, the value the wrapped SDL C call would return (and, for calls
with output parameters, the values the call would write), and translates
that value exactly as the C++ source does.  Native pointers are modelled
as Option Nat (none is the null pointer).  Scalar arguments that are
merely forwarded to SDL unchanged are omitted unless a claim is about the
forwarding itself; where a claim is about which arguments reach SDL, the
embedded function also returns a record of the call it makes.
-/

/-- The C++ implicit conversion from int to bool: nonzero converts to true. -/
def intToBool (n : Int) : Bool := n != 0

/-- The C++ division on int, which truncates toward zero. -/
def cppDiv (a b : Int) : Int := Int.tdiv a b

/-- The struct xy from include/util.hpp, instantiated at T = int. -/
structure xy where
  x : Int
  y : Int
deriving DecidableEq

/-- The struct wh from include/util.hpp, instantiated at T = int. -/
structure wh where
  width : Int
  height : Int
deriving DecidableEq

/-- The struct rgb from include/util.hpp, instantiated at T = uint8: three
color channels in 0..255 (value range not enforced by the wrapper). -/
structure rgb where
  r : Nat
  g : Nat
  b : Nat
deriving DecidableEq

/-- The class rect from include/shapes.hpp instantiated at T = int: it wraps
an SDL_Rect, whose fields are the C ints x, y, w, h. -/
structure rect where
  x : Int
  y : Int
  w : Int
  h : Int
deriving DecidableEq

/-- The class point from include/shapes.hpp instantiated at T = int: it
wraps an SDL_Point with fields x, y. -/
structure point where
  x : Int
  y : Int
deriving DecidableEq

/-- rect::top_left from include/shapes.hpp. -/
def rect.top_left (r : rect) : xy := ⟨r.x, r.y⟩

/-- rect::top_right from include/shapes.hpp. -/
def rect.top_right (r : rect) : xy := ⟨r.x + r.w, r.y⟩

/-- rect::bottom_left from include/shapes.hpp. -/
def rect.bottom_left (r : rect) : xy := ⟨r.x, r.y + r.h⟩

/-- rect::bottom_right from include/shapes.hpp. -/
def rect.bottom_right (r : rect) : xy := ⟨r.x + r.w, r.y + r.h⟩

/-- rect::center from include/shapes.hpp: the source expression is
rect_.x + rect_.w / T(2) and rect_.y + rect_.h / T(2), where / is the C++
int division (the source line has a stray closing parenthesis in place of
the closing brace, but the computed expression is this one). -/
def rect.center (r : rect) : xy := ⟨r.x + cppDiv r.w 2, r.y + cppDiv r.h 2⟩

/-- rect::size from include/shapes.hpp: rect_.w * rect_.h. -/
def rect.size (r : rect) : Int := r.w * r.h

/-- The surface wrapper class from include/surface.hpp: it holds the
SDL_Surface pointer surface_. -/
structure surface where
  surface_ : Option Nat
deriving DecidableEq

/-- The window wrapper class from include/window.hpp: it holds the
SDL_Window pointer window_. -/
structure window where
  window_ : Option Nat
deriving DecidableEq

/-- The renderer wrapper class from include/renderer.hpp: it holds the
SDL_Renderer pointer renderer_. -/
structure renderer where
  renderer_ : Option Nat
deriving DecidableEq

/-- The texture wrapper class from include/texture.hpp: it holds the
SDL_Texture pointer texture_. -/
structure texture where
  texture_ : Option Nat
deriving DecidableEq

/-- The pixel_format wrapper class from include/color.hpp: it holds the
SDL_PixelFormat pointer fmt_. -/
structure pixel_format where
  fmt_ : Option Nat
deriving DecidableEq

/-- surface::set_color_key from src/surface.cpp: the body is
return SDL_SetColorKey(surface_, static_cast(enable), color);
with no comparison against 0, so the raw SDL return code (0 on success,
negative on failure) is converted to bool by the implicit int-to-bool
conversion.  The argument sdlRet is the value SDL_SetColorKey returned. -/
def surface.set_color_key (_self : surface) (_enable : Bool) (_color : Nat) (sdlRet : Int) : Bool :=
  intToBool sdlRet

/-- surface::set_alpha_mod from src/surface.cpp: returns
SDL_SetSurfaceAlphaMod(surface_, alpha) == 0. -/
def surface.set_alpha_mod (_self : surface) (_alpha : Nat) (sdlRet : Int) : Bool :=
  sdlRet == 0

/-- texture::set_color_mod from src/texture.cpp: the body is
return SDL_SetTextureColorMod(texture_, mod.r, mod.g, mod.b);
with no comparison against 0, so the raw SDL return code is converted to
bool by the implicit int-to-bool conversion. -/
def texture.set_color_mod (_self : texture) (_mod : rgb) (sdlRet : Int) : Bool :=
  intToBool sdlRet

/-- window::set_modal_for from src/window.cpp: the body is
return SDL_SetWindowModalFor(window_, parent.window_);
with no comparison against 0, so the raw SDL return code is converted to
bool by the implicit int-to-bool conversion. -/
def window.set_modal_for (_self : window) (_parent : window) (sdlRet : Int) : Bool :=
  intToBool sdlRet

/-- A record of one SDL call taking an array argument: the handle passed as
first argument, the array passed (the pointer to its first element), and
the element count passed as the length argument. -/
structure SpanCall (α : Type) where
  target : Option Nat
  arr : List α
  count : Nat

/-- window::update_surface_rects from src/window.cpp: the body is
return SDL_UpdateWindowSurfaceRects(window_, rects.data()->native_handle(), rects.size());
The array pointer is obtained by calling the member native_handle through
the span data pointer; on the empty span the data pointer is null and that
member call dereferences null, which is undefined behavior (modelled as
none).  The raw SDL return code is converted to bool with no comparison
against 0. -/
def window.update_surface_rects (self : window) (rects : List rect) (sdlRet : Int) :
    Option (SpanCall rect × Bool) :=
  match rects with
  | [] => none
  | r :: rs => some (⟨self.window_, r :: rs, (r :: rs).length⟩, intToBool sdlRet)

/-- Claim C10: for every rect with fields x, y, w, h, the geometry accessors
satisfy top_left = (x, y), top_right = (x + w, y), bottom_left = (x, y + h),
bottom_right = (x + w, y + h), center = (x + w/2, y + h/2) with the C++
truncating int division, and size = w * h. -/
theorem rect_geometry_accessors (r : rect) :
    r.top_left = ⟨r.x, r.y⟩
  ∧ r.top_right = ⟨r.x + r.w, r.y⟩
  ∧ r.bottom_left = ⟨r.x, r.y + r.h⟩
  ∧ r.bottom_right = ⟨r.x + r.w, r.y + r.h⟩
  ∧ r.center = ⟨r.x + cppDiv r.w 2, r.y + cppDiv r.h 2⟩
  ∧ r.size = r.w * r.h :=
  ⟨rfl, rfl, rfl, rfl, rfl, rfl⟩

/-- Claim C1: evaluation of the four listed status wrappers at a success
return code (0) and a failure return code (-1) of the wrapped SDL call.
Each of surface::set_color_key, texture::set_color_mod,
window::set_modal_for and window::update_surface_rects omits the comparison
with 0 and so returns false exactly when SDL reports success, the opposite
of the claimed translation; a correctly written sibling
(surface::set_alpha_mod) is evaluated alongside for contrast. -/
theorem status_wrappers_invert_success_eval :
    surface.set_color_key ⟨some 1⟩ true 0 0 = false
  ∧ surface.set_color_key ⟨some 1⟩ true 0 (-1) = true
  ∧ texture.set_color_mod ⟨some 1⟩ ⟨255, 255, 255⟩ 0 = false
  ∧ texture.set_color_mod ⟨some 1⟩ ⟨255, 255, 255⟩ (-1) = true
  ∧ window.set_modal_for ⟨some 1⟩ ⟨some 2⟩ 0 = false
  ∧ window.set_modal_for ⟨some 1⟩ ⟨some 2⟩ (-1) = true
  ∧ (window.update_surface_rects ⟨some 1⟩ [⟨0, 0, 1, 1⟩] 0).map Prod.snd = some false
  ∧ (window.update_surface_rects ⟨some 1⟩ [⟨0, 0, 1, 1⟩] (-1)).map Prod.snd = some true
  ∧ surface.set_alpha_mod ⟨some 1⟩ 10 0 = true
  ∧ surface.set_alpha_mod ⟨some 1⟩ 10 (-1) = false := by
  decide

/-- The SDL2 initialization context class, identical in include/init.hpp and
include/sdl2++/init.hpp: it holds the flag valid_ guarding SDL_Quit in the
destructor. -/
structure SDL2 where
  valid_ : Bool
deriving DecidableEq

/-- The IMG initialization context class, identical in include/init.hpp and
include/sdl2++/init.hpp: it holds the flag valid_ guarding IMG_Quit in the
destructor. -/
structure IMG where
  valid_ : Bool
deriving DecidableEq

/-- SDL2::init from include/init.hpp: returns an engaged optional holding a
context (with valid_ = true from the default member initializer) when
SDL_Init returned 0, and an empty optional otherwise.  The argument sdlRet
is the value SDL_Init returned for the requested flags. -/
def SDL2.init (sdlRet : Int) : Option SDL2 :=
  if sdlRet == 0 then some ⟨true⟩ else none

/-- The SDL2 converting constructor from include/sdl2++/init.hpp:
valid_ is initialized to SDL_Init(flags) == 0. -/
def SDL2.ctor (sdlRet : Int) : SDL2 := ⟨sdlRet == 0⟩

/-- SDL2::is_ok from include/sdl2++/init.hpp: returns valid_. -/
def SDL2.is_ok (s : SDL2) : Bool := s.valid_

/-- IMG::init from include/init.hpp: returns an engaged optional holding a
context when IMG_Init returned 0, and an empty optional otherwise.  The
argument imgRet is the value IMG_Init returned for the requested flags;
IMG_Init returns a flag bitmask, never a negative error code, so the value
is modelled as a Nat. -/
def IMG.init (imgRet : Nat) : Option IMG :=
  if imgRet == 0 then some ⟨true⟩ else none

/-- The IMG converting constructor from include/sdl2++/init.hpp:
valid_ is initialized to IMG_Init(flags) == 0. -/
def IMG.ctor (imgRet : Nat) : IMG := ⟨imgRet == 0⟩

/-- IMG::is_ok from include/sdl2++/init.hpp: returns valid_. -/
def IMG.is_ok (i : IMG) : Bool := i.valid_

/-- Success of the external SDL_Init call, from the SDL2 API documentation:
SDL_Init returns 0 on success and a negative error code on failure. -/
def SDL_Init_succeeded (ret : Int) : Prop := ret = 0

/-- Success of the external IMG_Init call, from the SDL2_image API
documentation: IMG_Init returns the bitmask of the loader flags that were
successfully initialized (0 when all of them failed), so initialization
with a requested flag set succeeded exactly when every requested flag is
contained in the returned bitmask. -/
def IMG_Init_succeeded (flags ret : Nat) : Prop := ret &&& flags = flags

/-- Claim C2: evaluation of the initialization wrappers against library
success.  SDL2::init is engaged exactly when SDL_Init succeeded, as
claimed.  IMG::init, however, tests IMG_Init(flags) == 0 although IMG_Init
returns the successfully initialized flag bitmask, not an error code: with
the requested flags IMG_INIT_PNG = 2, a fully successful IMG_Init returns
2 and the wrapper yields an empty optional, while a failed IMG_Init
returns 0 and the wrapper yields an engaged context whose is_ok is true.
The constructor-based IMG context inverts success the same way. -/
theorem img_init_success_inverted_eval :
    SDL_Init_succeeded 0 ∧ (SDL2.init 0).isSome = true
  ∧ ¬ SDL_Init_succeeded (-1) ∧ (SDL2.init (-1)).isSome = false
  ∧ (SDL2.ctor 0).is_ok = true ∧ (SDL2.ctor (-1)).is_ok = false
  ∧ IMG_Init_succeeded 2 2 ∧ (IMG.init 2).isSome = false
  ∧ ¬ IMG_Init_succeeded 2 0 ∧ (IMG.init 0).isSome = true
  ∧ (IMG.ctor 2).is_ok = false ∧ (IMG.ctor 0).is_ok = true := by
  simp only [SDL_Init_succeeded, IMG_Init_succeeded]
  decide

/-- The SDL2 move constructor, identical in include/init.hpp and
include/sdl2++/init.hpp: it is declared = default, so the destination
copies valid_ and the source object is left with its valid_ unchanged.
The result is (destination, source after the move). -/
def SDL2.moveCtor (other : SDL2) : SDL2 × SDL2 := (⟨other.valid_⟩, other)

/-- The count of SDL_Quit calls made by the SDL2 destructor: one when
valid_ is set, none otherwise. -/
def SDL2.dtorReleaseCount (s : SDL2) : Nat := if s.valid_ then 1 else 0

/-- The IMG move constructor from include/init.hpp: it initializes valid_
with std::exchange(other.valid_, false), so the source is left invalid.
The result is (destination, source after the move). -/
def IMG.moveCtor (other : IMG) : IMG × IMG := (⟨other.valid_⟩, ⟨false⟩)

/-- The count of IMG_Quit calls made by the IMG destructor. -/
def IMG.dtorReleaseCount (i : IMG) : Nat := if i.valid_ then 1 else 0

/-- The window move constructor from include/window.hpp: it initializes
window_ with std::exchange(other.window_, nullptr). -/
def window.moveCtor (other : window) : window × window := (⟨other.window_⟩, ⟨none⟩)

/-- The count of SDL_DestroyWindow calls made by the window destructor:
one when window_ is non-null, none otherwise. -/
def window.dtorReleaseCount (w : window) : Nat := if w.window_.isSome then 1 else 0

/-- The renderer move constructor from include/renderer.hpp: it initializes
renderer_ with std::exchange(other.renderer_, nullptr). -/
def renderer.moveCtor (other : renderer) : renderer × renderer := (⟨other.renderer_⟩, ⟨none⟩)

/-- The count of SDL_DestroyRenderer calls made by the renderer destructor. -/
def renderer.dtorReleaseCount (r : renderer) : Nat := if r.renderer_.isSome then 1 else 0

/-- The surface move constructor from src/surface.cpp: it initializes
surface_ with std::exchange(other.surface_, nullptr). -/
def surface.moveCtor (other : surface) : surface × surface := (⟨other.surface_⟩, ⟨none⟩)

/-- The count of SDL_FreeSurface calls made by the surface destructor. -/
def surface.dtorReleaseCount (s : surface) : Nat := if s.surface_.isSome then 1 else 0

/-- The texture move constructor from include/texture.hpp: it initializes
texture_ with std::exchange(other.texture_, nullptr). -/
def texture.moveCtor (other : texture) : texture × texture := (⟨other.texture_⟩, ⟨none⟩)

/-- The count of SDL_DestroyTexture calls made by the texture destructor. -/
def texture.dtorReleaseCount (t : texture) : Nat := if t.texture_.isSome then 1 else 0

/-- The pixel_format move constructor from include/color.hpp: it
initializes fmt_ with std::exchange(other.fmt_, nullptr). -/
def pixel_format.moveCtor (other : pixel_format) : pixel_format × pixel_format := (⟨other.fmt_⟩, ⟨none⟩)

/-- The count of SDL_FreeFormat calls made by the pixel_format destructor. -/
def pixel_format.dtorReleaseCount (p : pixel_format) : Nat := if p.fmt_.isSome then 1 else 0

/-- Claim C3: release counts after a move construction.  For IMG, window,
renderer, surface, texture and pixel_format the move constructor nulls the
source, so only the destination destructor releases (one release in
total).  For SDL2, however, the move constructor is defaulted: a moved
from valid SDL2 context keeps valid_ = true and both destructors call
SDL_Quit, two releases in total, so the resource is not released exactly
once. -/
theorem sdl2_moved_from_still_quits :
    ((SDL2.moveCtor ⟨true⟩).1.dtorReleaseCount + (SDL2.moveCtor ⟨true⟩).2.dtorReleaseCount = 2)
  ∧ ((IMG.moveCtor ⟨true⟩).1.dtorReleaseCount + (IMG.moveCtor ⟨true⟩).2.dtorReleaseCount = 1)
  ∧ ((window.moveCtor ⟨some 7⟩).1.dtorReleaseCount + (window.moveCtor ⟨some 7⟩).2.dtorReleaseCount = 1)
  ∧ ((renderer.moveCtor ⟨some 7⟩).1.dtorReleaseCount + (renderer.moveCtor ⟨some 7⟩).2.dtorReleaseCount = 1)
  ∧ ((surface.moveCtor ⟨some 7⟩).1.dtorReleaseCount + (surface.moveCtor ⟨some 7⟩).2.dtorReleaseCount = 1)
  ∧ ((texture.moveCtor ⟨some 7⟩).1.dtorReleaseCount + (texture.moveCtor ⟨some 7⟩).2.dtorReleaseCount = 1)
  ∧ ((pixel_format.moveCtor ⟨some 7⟩).1.dtorReleaseCount + (pixel_format.moveCtor ⟨some 7⟩).2.dtorReleaseCount = 1) := by
  decide

/-- window::create from src/window.cpp: calls SDL_CreateWindow and wraps
the returned pointer when it is non-null; the argument sdlRet is that
returned pointer. -/
def window.create (sdlRet : Option Nat) : Option window :=
  match sdlRet with
  | some win => some ⟨some win⟩
  | none => none

/-- window::copy from src/window.cpp: calls SDL_CreateWindow with the
position, size, title and flags read from the other window, and wraps the
returned pointer when it is non-null. -/
def window.copy (sdlRet : Option Nat) : Option window :=
  match sdlRet with
  | some win => some ⟨some win⟩
  | none => none

/-- renderer::create from include/renderer.hpp: calls SDL_CreateRenderer
and wraps the returned pointer when it is non-null. -/
def renderer.create (sdlRet : Option Nat) : Option renderer :=
  match sdlRet with
  | some r => some ⟨some r⟩
  | none => none

/-- renderer::create_software from include/renderer.hpp: calls
SDL_CreateSoftwareRenderer and wraps the returned pointer when it is
non-null. -/
def renderer.create_software (sdlRet : Option Nat) : Option renderer :=
  match sdlRet with
  | some r => some ⟨some r⟩
  | none => none

/-- The surface::create overload (wh, depth, masks) from src/surface.cpp:
calls SDL_CreateRGBSurface and wraps the returned pointer when it is
non-null. -/
def surface.create_rgb (sdlRet : Option Nat) : Option surface :=
  match sdlRet with
  | some s => some ⟨some s⟩
  | none => none

/-- The surface::create overload (pixels, pitch, wh, depth, masks) from
src/surface.cpp: calls SDL_CreateRGBSurfaceFrom and wraps the returned
pointer when it is non-null. -/
def surface.create_rgb_from (sdlRet : Option Nat) : Option surface :=
  match sdlRet with
  | some s => some ⟨some s⟩
  | none => none

/-- The surface::create overload (fmt, depth, wh) from src/surface.cpp:
calls SDL_CreateRGBSurfaceWithFormat and wraps the returned pointer when
it is non-null. -/
def surface.create_with_format (sdlRet : Option Nat) : Option surface :=
  match sdlRet with
  | some s => some ⟨some s⟩
  | none => none

/-- The surface::create overload (pixels, pitch, fmt, depth, wh) from
src/surface.cpp: calls SDL_CreateRGBSurfaceWithFormatFrom and wraps the
returned pointer when it is non-null. -/
def surface.create_with_format_from (sdlRet : Option Nat) : Option surface :=
  match sdlRet with
  | some s => some ⟨some s⟩
  | none => none

/-- The surface::create overload (file) from src/surface.cpp: calls
IMG_Load and wraps the returned pointer when it is non-null. -/
def surface.create_from_file (sdlRet : Option Nat) : Option surface :=
  match sdlRet with
  | some s => some ⟨some s⟩
  | none => none

/-- Claim C4: each creation factory returns exactly the wrapper of the
handle produced by the underlying SDL creation call when that call
returned a non-null pointer, and an empty optional (hence no
resource-owning wrapper) when it returned null. -/
theorem creation_factories_wrap_iff_nonnull (r : Option Nat) :
    window.create r = r.map (fun h => ⟨some h⟩)
  ∧ window.copy r = r.map (fun h => ⟨some h⟩)
  ∧ renderer.create r = r.map (fun h => ⟨some h⟩)
  ∧ renderer.create_software r = r.map (fun h => ⟨some h⟩)
  ∧ surface.create_rgb r = r.map (fun h => ⟨some h⟩)
  ∧ surface.create_rgb_from r = r.map (fun h => ⟨some h⟩)
  ∧ surface.create_with_format r = r.map (fun h => ⟨some h⟩)
  ∧ surface.create_with_format_from r = r.map (fun h => ⟨some h⟩)
  ∧ surface.create_from_file r = r.map (fun h => ⟨some h⟩)
  ∧ window.create none = none ∧ surface.create_rgb none = none := by
  cases r <;> exact ⟨rfl, rfl, rfl, rfl, rfl, rfl, rfl, rfl, rfl, rfl, rfl⟩

/-- The four SDL surface blit entry points wrapped by the blit family. -/
inductive BlitFn
  | blitSurface
  | blitScaled
  | lowerBlit
  | lowerBlitScaled
deriving DecidableEq

/-- A record of one SDL blit call: the entry point, the source surface
pointer, the source rectangle pointer, the destination surface pointer and
the destination rectangle pointer (none is the null pointer). -/
structure BlitCall where
  fn : BlitFn
  src : Option Nat
  srcrect : Option rect
  dst : Option Nat
  dstrect : Option rect
deriving DecidableEq

/-- surface::blit(srcrect, dst, dstrect) from src/surface.cpp: one call
SDL_BlitSurface(surface_, srcrect, dst.surface_, dstrect), result == 0. -/
def surface.blit_srcrect_dst_dstrect (self : surface) (srcrect : rect) (dst : surface) (dstrect : rect) (sdlRet : Int) :
    List BlitCall × Bool :=
  ([⟨BlitFn.blitSurface, self.surface_, some srcrect, dst.surface_, some dstrect⟩], sdlRet == 0)

/-- surface::blit(dst, dstrect) from src/surface.cpp: one call
SDL_BlitSurface(surface_, nullptr, dst.surface_, dstrect), result == 0. -/
def surface.blit_dst_dstrect (self : surface) (dst : surface) (dstrect : rect) (sdlRet : Int) :
    List BlitCall × Bool :=
  ([⟨BlitFn.blitSurface, self.surface_, none, dst.surface_, some dstrect⟩], sdlRet == 0)

/-- surface::blit(dst) from src/surface.cpp: one call
SDL_BlitSurface(surface_, nullptr, dst.surface_, nullptr), result == 0. -/
def surface.blit_dst (self : surface) (dst : surface) (sdlRet : Int) :
    List BlitCall × Bool :=
  ([⟨BlitFn.blitSurface, self.surface_, none, dst.surface_, none⟩], sdlRet == 0)

/-- surface::blit(srcrect, dst) from src/surface.cpp: one call
SDL_BlitSurface(surface_, srcrect, dst.surface_, nullptr), result == 0. -/
def surface.blit_srcrect_dst (self : surface) (srcrect : rect) (dst : surface) (sdlRet : Int) :
    List BlitCall × Bool :=
  ([⟨BlitFn.blitSurface, self.surface_, some srcrect, dst.surface_, none⟩], sdlRet == 0)

/-- surface::blit_scaled(srcrect, dst, dstrect) from src/surface.cpp. -/
def surface.blit_scaled_srcrect_dst_dstrect (self : surface) (srcrect : rect) (dst : surface) (dstrect : rect) (sdlRet : Int) :
    List BlitCall × Bool :=
  ([⟨BlitFn.blitScaled, self.surface_, some srcrect, dst.surface_, some dstrect⟩], sdlRet == 0)

/-- surface::blit_scaled(dst, dstrect) from src/surface.cpp. -/
def surface.blit_scaled_dst_dstrect (self : surface) (dst : surface) (dstrect : rect) (sdlRet : Int) :
    List BlitCall × Bool :=
  ([⟨BlitFn.blitScaled, self.surface_, none, dst.surface_, some dstrect⟩], sdlRet == 0)

/-- surface::blit_scaled(dst) from src/surface.cpp. -/
def surface.blit_scaled_dst (self : surface) (dst : surface) (sdlRet : Int) :
    List BlitCall × Bool :=
  ([⟨BlitFn.blitScaled, self.surface_, none, dst.surface_, none⟩], sdlRet == 0)

/-- surface::blit_scaled(srcrect, dst) from src/surface.cpp. -/
def surface.blit_scaled_srcrect_dst (self : surface) (srcrect : rect) (dst : surface) (sdlRet : Int) :
    List BlitCall × Bool :=
  ([⟨BlitFn.blitScaled, self.surface_, some srcrect, dst.surface_, none⟩], sdlRet == 0)

/-- surface::lower_blit(srcrect, dst, dstrect) from src/surface.cpp. -/
def surface.lower_blit_srcrect_dst_dstrect (self : surface) (srcrect : rect) (dst : surface) (dstrect : rect) (sdlRet : Int) :
    List BlitCall × Bool :=
  ([⟨BlitFn.lowerBlit, self.surface_, some srcrect, dst.surface_, some dstrect⟩], sdlRet == 0)

/-- surface::lower_blit(dst, dstrect) from src/surface.cpp. -/
def surface.lower_blit_dst_dstrect (self : surface) (dst : surface) (dstrect : rect) (sdlRet : Int) :
    List BlitCall × Bool :=
  ([⟨BlitFn.lowerBlit, self.surface_, none, dst.surface_, some dstrect⟩], sdlRet == 0)

/-- surface::lower_blit(dst) from src/surface.cpp. -/
def surface.lower_blit_dst (self : surface) (dst : surface) (sdlRet : Int) :
    List BlitCall × Bool :=
  ([⟨BlitFn.lowerBlit, self.surface_, none, dst.surface_, none⟩], sdlRet == 0)

/-- surface::lower_blit(srcrect, dst) from src/surface.cpp. -/
def surface.lower_blit_srcrect_dst (self : surface) (srcrect : rect) (dst : surface) (sdlRet : Int) :
    List BlitCall × Bool :=
  ([⟨BlitFn.lowerBlit, self.surface_, some srcrect, dst.surface_, none⟩], sdlRet == 0)

/-- surface::lower_blit_scaled(srcrect, dst, dstrect) from src/surface.cpp. -/
def surface.lower_blit_scaled_srcrect_dst_dstrect (self : surface) (srcrect : rect) (dst : surface) (dstrect : rect) (sdlRet : Int) :
    List BlitCall × Bool :=
  ([⟨BlitFn.lowerBlitScaled, self.surface_, some srcrect, dst.surface_, some dstrect⟩], sdlRet == 0)

/-- surface::lower_blit_scaled(dst, dstrect) from src/surface.cpp. -/
def surface.lower_blit_scaled_dst_dstrect (self : surface) (dst : surface) (dstrect : rect) (sdlRet : Int) :
    List BlitCall × Bool :=
  ([⟨BlitFn.lowerBlitScaled, self.surface_, none, dst.surface_, some dstrect⟩], sdlRet == 0)

/-- surface::lower_blit_scaled(dst) from src/surface.cpp. -/
def surface.lower_blit_scaled_dst (self : surface) (dst : surface) (sdlRet : Int) :
    List BlitCall × Bool :=
  ([⟨BlitFn.lowerBlitScaled, self.surface_, none, dst.surface_, none⟩], sdlRet == 0)

/-- surface::lower_blit_scaled(srcrect, dst) from src/surface.cpp. -/
def surface.lower_blit_scaled_srcrect_dst (self : surface) (srcrect : rect) (dst : surface) (sdlRet : Int) :
    List BlitCall × Bool :=
  ([⟨BlitFn.lowerBlitScaled, self.surface_, some srcrect, dst.surface_, none⟩], sdlRet == 0)

/-- Claim C5: each of the sixteen blit family overloads makes exactly one
call to its SDL blit entry point, passing the source handle, the
destination handle, and the given rectangles with null substituted for
each omitted rectangle, and returns true exactly when that call returned 0. -/
theorem blit_family_passthrough (s d : surface) (sr dr : rect) (ret : Int) :
    (surface.blit_srcrect_dst_dstrect s sr d dr ret).1 = [⟨BlitFn.blitSurface, s.surface_, some sr, d.surface_, some dr⟩]
  ∧ ((surface.blit_srcrect_dst_dstrect s sr d dr ret).2 = true ↔ ret = 0)
  ∧ (surface.blit_dst_dstrect s d dr ret).1 = [⟨BlitFn.blitSurface, s.surface_, none, d.surface_, some dr⟩]
  ∧ ((surface.blit_dst_dstrect s d dr ret).2 = true ↔ ret = 0)
  ∧ (surface.blit_dst s d ret).1 = [⟨BlitFn.blitSurface, s.surface_, none, d.surface_, none⟩]
  ∧ ((surface.blit_dst s d ret).2 = true ↔ ret = 0)
  ∧ (surface.blit_srcrect_dst s sr d ret).1 = [⟨BlitFn.blitSurface, s.surface_, some sr, d.surface_, none⟩]
  ∧ ((surface.blit_srcrect_dst s sr d ret).2 = true ↔ ret = 0)
  ∧ (surface.blit_scaled_srcrect_dst_dstrect s sr d dr ret).1 = [⟨BlitFn.blitScaled, s.surface_, some sr, d.surface_, some dr⟩]
  ∧ ((surface.blit_scaled_srcrect_dst_dstrect s sr d dr ret).2 = true ↔ ret = 0)
  ∧ (surface.blit_scaled_dst_dstrect s d dr ret).1 = [⟨BlitFn.blitScaled, s.surface_, none, d.surface_, some dr⟩]
  ∧ ((surface.blit_scaled_dst_dstrect s d dr ret).2 = true ↔ ret = 0)
  ∧ (surface.blit_scaled_dst s d ret).1 = [⟨BlitFn.blitScaled, s.surface_, none, d.surface_, none⟩]
  ∧ ((surface.blit_scaled_dst s d ret).2 = true ↔ ret = 0)
  ∧ (surface.blit_scaled_srcrect_dst s sr d ret).1 = [⟨BlitFn.blitScaled, s.surface_, some sr, d.surface_, none⟩]
  ∧ ((surface.blit_scaled_srcrect_dst s sr d ret).2 = true ↔ ret = 0)
  ∧ (surface.lower_blit_srcrect_dst_dstrect s sr d dr ret).1 = [⟨BlitFn.lowerBlit, s.surface_, some sr, d.surface_, some dr⟩]
  ∧ ((surface.lower_blit_srcrect_dst_dstrect s sr d dr ret).2 = true ↔ ret = 0)
  ∧ (surface.lower_blit_dst_dstrect s d dr ret).1 = [⟨BlitFn.lowerBlit, s.surface_, none, d.surface_, some dr⟩]
  ∧ ((surface.lower_blit_dst_dstrect s d dr ret).2 = true ↔ ret = 0)
  ∧ (surface.lower_blit_dst s d ret).1 = [⟨BlitFn.lowerBlit, s.surface_, none, d.surface_, none⟩]
  ∧ ((surface.lower_blit_dst s d ret).2 = true ↔ ret = 0)
  ∧ (surface.lower_blit_srcrect_dst s sr d ret).1 = [⟨BlitFn.lowerBlit, s.surface_, some sr, d.surface_, none⟩]
  ∧ ((surface.lower_blit_srcrect_dst s sr d ret).2 = true ↔ ret = 0)
  ∧ (surface.lower_blit_scaled_srcrect_dst_dstrect s sr d dr ret).1 = [⟨BlitFn.lowerBlitScaled, s.surface_, some sr, d.surface_, some dr⟩]
  ∧ ((surface.lower_blit_scaled_srcrect_dst_dstrect s sr d dr ret).2 = true ↔ ret = 0)
  ∧ (surface.lower_blit_scaled_dst_dstrect s d dr ret).1 = [⟨BlitFn.lowerBlitScaled, s.surface_, none, d.surface_, some dr⟩]
  ∧ ((surface.lower_blit_scaled_dst_dstrect s d dr ret).2 = true ↔ ret = 0)
  ∧ (surface.lower_blit_scaled_dst s d ret).1 = [⟨BlitFn.lowerBlitScaled, s.surface_, none, d.surface_, none⟩]
  ∧ ((surface.lower_blit_scaled_dst s d ret).2 = true ↔ ret = 0)
  ∧ (surface.lower_blit_scaled_srcrect_dst s sr d ret).1 = [⟨BlitFn.lowerBlitScaled, s.surface_, some sr, d.surface_, none⟩]
  ∧ ((surface.lower_blit_scaled_srcrect_dst s sr d ret).2 = true ↔ ret = 0) :=
  ⟨rfl, beq_iff_eq, rfl, beq_iff_eq, rfl, beq_iff_eq, rfl, beq_iff_eq,
   rfl, beq_iff_eq, rfl, beq_iff_eq, rfl, beq_iff_eq, rfl, beq_iff_eq,
   rfl, beq_iff_eq, rfl, beq_iff_eq, rfl, beq_iff_eq, rfl, beq_iff_eq,
   rfl, beq_iff_eq, rfl, beq_iff_eq, rfl, beq_iff_eq, rfl, beq_iff_eq⟩

/-- The fields of the native SDL_Surface that the wrapper accessors expose:
pixel format, width, height, pitch and the pixel buffer address. -/
structure SDL_SurfaceData where
  format : Nat
  w : Int
  h : Int
  pitch : Int
  pixels : Nat
deriving DecidableEq

/-- surface::convert from src/surface.cpp: the body is
return SDL_ConvertSurface(surface_, fmt.native_handle(), 0) != nullptr ? true : false;
SDL_ConvertSurface allocates and returns a fresh converted copy and leaves
the source surface untouched (SDL2 API documentation); the wrapper ignores
the returned pointer and never assigns surface_, so both the wrapper and
the native surface data pass through unchanged.  The argument sdlRet is
the pointer SDL_ConvertSurface returned. -/
def surface.convert (self : surface) (native : SDL_SurfaceData) (_fmt : pixel_format) (sdlRet : Option Nat) :
    Bool × surface × SDL_SurfaceData :=
  (if sdlRet.isSome then true else false, self, native)

/-- Claim C9: surface::convert leaves the surface it is called on unchanged
regardless of the returned bool: the held native handle and every
observable native property (format, width, height, pitch, pixels) are the
same after the call as before it. -/
theorem surface_convert_frame (s : surface) (n : SDL_SurfaceData) (fmt : pixel_format) (r : Option Nat) :
    (surface.convert s n fmt r).2.1 = s
  ∧ (surface.convert s n fmt r).2.1.surface_ = s.surface_
  ∧ (surface.convert s n fmt r).2.2 = n
  ∧ (surface.convert s n fmt r).2.2.format = n.format
  ∧ (surface.convert s n fmt r).2.2.w = n.w
  ∧ (surface.convert s n fmt r).2.2.h = n.h
  ∧ (surface.convert s n fmt r).2.2.pitch = n.pitch
  ∧ (surface.convert s n fmt r).2.2.pixels = n.pixels :=
  ⟨rfl, rfl, rfl, rfl, rfl, rfl, rfl, rfl⟩

/-- The external SDL_PollEvent call, from the SDL2 API documentation,
with the pending event queue modelled as a list: when an event is pending
it is removed from the queue, written into the passed buffer and 1 is
returned; when the queue is empty 0 is returned and the buffer is left
unchanged.  The result is ((return code, buffer after the call), queue
after the call). -/
def SDL_PollEvent {ε : Type} (buf : ε) (q : List ε) : (Int × ε) × List ε :=
  match q with
  | [] => ((0, buf), [])
  | e :: rest => ((1, e), rest)

/-- event_queue_t::poll from include/event.hpp: value-initializes an event
(the argument zeroed), calls SDL_PollEvent on it once and returns the
event exactly when the call returned nonzero. -/
def event_queue_t.poll {ε : Type} (zeroed : ε) (q : List ε) : Option ε × List ε :=
  let r := SDL_PollEvent zeroed q
  (if r.1.1 != 0 then some r.1.2 else none, r.2)

/-- The event_queue_t::iterator class from include/event.hpp: it holds the
event buffer e_ and the flag done_. -/
structure event_iterator (ε : Type) where
  e_ : ε
  done_ : Bool

/-- The private iterator constructor from include/event.hpp, used by
event_queue_t::begin: e_ is value-initialized (the argument zeroed) and
done_ is set to SDL_PollEvent(&e_) == 0. -/
def event_queue_t.beginIter {ε : Type} (zeroed : ε) (q : List ε) : event_iterator ε × List ε :=
  let r := SDL_PollEvent zeroed q
  (⟨r.1.2, r.1.1 == 0⟩, r.2)

/-- iterator::operator++ from include/event.hpp: polls into e_ again and
sets done_ to SDL_PollEvent(&e_) == 0. -/
def event_iterator.inc {ε : Type} (it : event_iterator ε) (q : List ε) : event_iterator ε × List ε :=
  let r := SDL_PollEvent it.e_ q
  (⟨r.1.2, r.1.1 == 0⟩, r.2)

/-- iterator::operator!=(sentinel) from include/event.hpp: returns the
negation of done_, so the iterator compares equal to the end sentinel
exactly when done_ is set. -/
def event_iterator.neq_end {ε : Type} (it : event_iterator ε) : Bool := !it.done_

/-- The range-for loop over event_queue from include/event.hpp: while the
iterator differs from the end sentinel, yield the current event and
increment; returns the list of yielded events. -/
def event_iterator.drain {ε : Type} (it : event_iterator ε) (q : List ε) : List ε :=
  if event_iterator.neq_end it then
    it.e_ :: event_iterator.drain (event_iterator.inc it q).1 (event_iterator.inc it q).2
  else []
termination_by q.length + (if it.done_ then 0 else 1)
decreasing_by
  cases q <;>
    simp_all [event_iterator.inc, event_iterator.neq_end, SDL_PollEvent]

/-- Helper: a not-done iterator holding event x over queue q yields
exactly x followed by the whole queue. -/
theorem drain_not_done {ε : Type} (x : ε) (q : List ε) :
    event_iterator.drain ⟨x, false⟩ q = x :: q := by
  induction q generalizing x with
  | nil =>
    rw [event_iterator.drain, event_iterator.drain]
    simp [event_iterator.neq_end, event_iterator.inc, SDL_PollEvent]
  | cons y rest ih =>
    rw [event_iterator.drain]
    simp only [event_iterator.neq_end, event_iterator.inc, SDL_PollEvent]
    simp [ih]

/-- Claim C6: event_queue_t::poll returns an engaged optional holding
exactly the event SDL_PollEvent wrote (the queue head) when one is
pending, and an empty optional on an empty queue; the iterator compares
equal to the end sentinel exactly when SDL_PollEvent returned 0, and
driving the iterator to the sentinel yields one event per successful
SDL_PollEvent call, namely the whole pending queue in order. -/
theorem event_queue_poll_iterator_spec (ε : Type) (zeroed : ε) (q : List ε) :
    (event_queue_t.poll zeroed q).1 = q.head?
  ∧ (event_queue_t.poll zeroed q).2 = q.tail
  ∧ (event_queue_t.beginIter zeroed q).1.done_ = q.isEmpty
  ∧ (event_queue_t.beginIter zeroed q).1.neq_end = !q.isEmpty
  ∧ event_iterator.drain (event_queue_t.beginIter zeroed q).1 (event_queue_t.beginIter zeroed q).2 = q := by
  cases q with
  | nil =>
    refine ⟨rfl, rfl, rfl, rfl, ?_⟩
    rw [event_iterator.drain]
    simp [event_queue_t.beginIter, SDL_PollEvent, event_iterator.neq_end]
  | cons x rest =>
    refine ⟨rfl, rfl, rfl, rfl, ?_⟩
    show event_iterator.drain ⟨x, (1 : Int) == 0⟩ rest = x :: rest
    simpa using drain_not_done x rest

/-- The texture_access enum from include/enums.hpp. -/
inductive texture_access
  | STATIC
  | STREAMING
  | TARGET
deriving DecidableEq

/-- The SDL texture lock and unlock calls made by the wrapper. -/
inductive TexCall
  | lockTexture (t : Option Nat) (r : Option rect)
  | unlockTexture (t : Option Nat)
deriving DecidableEq

/-- The texture_lock class from include/texture.hpp: it holds the locked
texture pointer texture_, the pixel pointer pixels_ and the pitch pitch_,
all const; its copy constructor is deleted and no move constructor is
declared, so every constructed lock is destroyed exactly once. -/
structure texture_lock where
  texture_ : Option Nat
  pixels_ : Nat
  pitch_ : Int
deriving DecidableEq

/-- texture::lock from src/texture.cpp: asserts access() ==
texture_access::STREAMING (none models the failed assertion), calls
SDL_LockTexture(texture_, nullptr, &pixels, &pitch) once, and returns the
texture_lock built from texture_ and the pixels and pitch SDL_LockTexture
wrote.  The argument acc is the access mode SDL_QueryTexture reports for
this texture; sdlPixels and sdlPitch are the values SDL_LockTexture
wrote.  The first component of the result lists the SDL lock calls made. -/
def texture.lock (self : texture) (acc : texture_access) (sdlPixels : Nat) (sdlPitch : Int) :
    Option (List TexCall × texture_lock) :=
  if acc = texture_access.STREAMING then
    some ([TexCall.lockTexture self.texture_ none], ⟨self.texture_, sdlPixels, sdlPitch⟩)
  else none

/-- The texture::lock overload taking a rect from src/texture.cpp: as
texture.lock, but SDL_LockTexture receives the given rectangle. -/
def texture.lock_rect (self : texture) (acc : texture_access) (r : rect) (sdlPixels : Nat) (sdlPitch : Int) :
    Option (List TexCall × texture_lock) :=
  if acc = texture_access.STREAMING then
    some ([TexCall.lockTexture self.texture_ (some r)], ⟨self.texture_, sdlPixels, sdlPitch⟩)
  else none

/-- The texture_lock destructor from include/texture.hpp: it
unconditionally calls SDL_UnlockTexture(texture_) exactly once, on the
texture pointer stored in the lock. -/
def texture_lock.dtorCalls (l : texture_lock) : List TexCall :=
  [TexCall.unlockTexture l.texture_]

/-- Claim C7: under the asserted precondition that the texture access mode
is STREAMING, texture::lock makes exactly one SDL_LockTexture call on the
texture and returns a texture_lock exposing the pixel pointer and pitch
SDL_LockTexture produced; destroying that lock makes exactly one
SDL_UnlockTexture call, on the same texture that was locked. -/
theorem texture_lock_roundtrip (t : texture) (acc : texture_access) (p : Nat) (pt : Int) (r : rect)
    (h : acc = texture_access.STREAMING) :
    texture.lock t acc p pt =
      some ([TexCall.lockTexture t.texture_ none], ⟨t.texture_, p, pt⟩)
  ∧ texture.lock_rect t acc r p pt =
      some ([TexCall.lockTexture t.texture_ (some r)], ⟨t.texture_, p, pt⟩)
  ∧ texture_lock.dtorCalls ⟨t.texture_, p, pt⟩ = [TexCall.unlockTexture t.texture_] := by
  subst h
  exact ⟨rfl, rfl, rfl⟩

/-- Witness for claim C7: the lock and unlock round trip evaluated on a
concrete streaming texture. -/
theorem texture_lock_roundtrip_witness :
    texture.lock ⟨some 3⟩ texture_access.STREAMING 5 4 =
      some ([TexCall.lockTexture (some 3) none], ⟨some 3, 5, 4⟩)
  ∧ texture.lock_rect ⟨some 3⟩ texture_access.STREAMING ⟨0, 0, 2, 2⟩ 5 4 =
      some ([TexCall.lockTexture (some 3) (some ⟨0, 0, 2, 2⟩)], ⟨some 3, 5, 4⟩)
  ∧ texture_lock.dtorCalls ⟨some 3, 5, 4⟩ = [TexCall.unlockTexture (some 3)] :=
  texture_lock_roundtrip ⟨some 3⟩ texture_access.STREAMING 5 4 ⟨0, 0, 2, 2⟩ rfl

/-- surface::fill_rects from src/surface.cpp: the body is
return SDL_FillRects(surface_, rects.data()->native_handle(), static_cast(rects.size()), color) == 0;
The array pointer is obtained by calling the member native_handle through
the span data pointer; on the empty span the data pointer is null and
that member call dereferences null, which is undefined behavior (modelled
as none).  The count passed is the element count of the span. -/
def surface.fill_rects (self : surface) (rects : List rect) (sdlRet : Int) :
    Option (SpanCall rect × Bool) :=
  match rects with
  | [] => none
  | r :: rs => some (⟨self.surface_, r :: rs, (r :: rs).length⟩, sdlRet == 0)

/-- renderer::draw_lines (Rep = int) from include/renderer.hpp: the body is
return SDL_RenderDrawLines(renderer_, points.data()->native_handle(), static_cast(points.size())) == 0;
with the same null dereference through the span data pointer on the empty
span (modelled as none). -/
def renderer.draw_lines (self : renderer) (points : List point) (sdlRet : Int) :
    Option (SpanCall point × Bool) :=
  match points with
  | [] => none
  | p :: ps => some (⟨self.renderer_, p :: ps, (p :: ps).length⟩, sdlRet == 0)

/-- renderer::draw_points (Rep = int) from include/renderer.hpp: the body is
return SDL_RenderDrawPoints(renderer_, points.data()->native_handle(), static_cast(points.size())) == 0;
with the same null dereference through the span data pointer on the empty
span (modelled as none). -/
def renderer.draw_points (self : renderer) (points : List point) (sdlRet : Int) :
    Option (SpanCall point × Bool) :=
  match points with
  | [] => none
  | p :: ps => some (⟨self.renderer_, p :: ps, (p :: ps).length⟩, sdlRet == 0)

/-- Counterexample for claim C8: on the empty span each of the four listed
span wrappers evaluates the member call native_handle through the null
span data pointer, so the call is not well-defined (modelled none), at
the concrete input of an empty span and SDL return code 0. -/
theorem span_wrappers_empty_counterexample :
    (surface.fill_rects ⟨some 1⟩ [] 0).isSome = false
  ∧ (renderer.draw_lines ⟨some 1⟩ [] 0).isSome = false
  ∧ (renderer.draw_points ⟨some 1⟩ [] 0).isSome = false
  ∧ (window.update_surface_rects ⟨some 1⟩ [] 0).isSome = false := by
  decide

/-- Claim C8 as amended: the span wrappers pass the element count of the
span to SDL as the array length, and obtain the array pointer by invoking
native_handle through the span data pointer; on a non-empty span they are
well-defined and pass the array of the span elements, while on the empty
span the data pointer is null, the member call through it is undefined
behavior, and no call is made. -/
theorem span_wrappers_count_and_pointer (sh rh wd : Option Nat) (x : rect) (xs : List rect)
    (p : point) (ps : List point) (ret : Int) :
    surface.fill_rects ⟨sh⟩ (x :: xs) ret = some (⟨sh, x :: xs, xs.length + 1⟩, ret == 0)
  ∧ renderer.draw_lines ⟨rh⟩ (p :: ps) ret = some (⟨rh, p :: ps, ps.length + 1⟩, ret == 0)
  ∧ renderer.draw_points ⟨rh⟩ (p :: ps) ret = some (⟨rh, p :: ps, ps.length + 1⟩, ret == 0)
  ∧ window.update_surface_rects ⟨wd⟩ (x :: xs) ret = some (⟨wd, x :: xs, xs.length + 1⟩, intToBool ret)
  ∧ surface.fill_rects ⟨sh⟩ [] ret = none
  ∧ renderer.draw_lines ⟨rh⟩ [] ret = none
  ∧ renderer.draw_points ⟨rh⟩ [] ret = none
  ∧ window.update_surface_rects ⟨wd⟩ [] ret = none :=
  ⟨rfl, rfl, rfl, rfl, rfl, rfl, rfl, rfl⟩
